import Mathlib

set_option maxRecDepth 10000

/-!
Verification of the SuperClaude hook subsystem: a shallow embedding of
`SuperClaude/Hooks/morph_error_handler.py`,
`SuperClaude/Hooks/Utils/performance_optimizer.py`,
`SuperClaude/Hooks/morph_tool_interceptor.py` and
`SuperClaude/Hooks/pre_tool_use.py`, together with theorems about the
error classifier, fallback-strategy selection, the circuit breaker, the
LRU cache, the performance monitor and tool interception.
-/

namespace SuperClaude

/-- `ErrorType` enum from `morph_error_handler.py`. -/
inductive ErrorType where
  | SERVER_UNAVAILABLE
  | API_KEY_INVALID
  | TIMEOUT
  | FILE_LOCK
  | PERMISSION_DENIED
  | MEMORY_ERROR
  | NETWORK_ERROR
  | TOOL_MAPPING_ERROR
  | UNKNOWN_ERROR
  deriving DecidableEq, Repr

/-- `FallbackStrategy` enum from `morph_error_handler.py`. -/
inductive FallbackStrategy where
  | NATIVE_TOOL
  | RETRY_WITH_BACKOFF
  | BATCH_OPERATION
  | ALTERNATIVE_TOOL
  | GRACEFUL_DEGRADATION
  | FAIL_FAST
  deriving DecidableEq, Repr

/-- Python `str.lower`, embedded as `Char.toLower` mapped over the
characters (kernel-reducible, unlike `String.toLower`). -/
def strToLower (s : String) : String :=
  String.mk (s.data.map Char.toLower)

/-- Helper: `needle` occurs as a contiguous run inside the list. -/
def hasInfixList (needle : List Char) : List Char → Bool
  | [] => needle.isEmpty
  | c :: rest => needle.isPrefixOf (c :: rest) || hasInfixList needle rest

/-- Python `needle in haystack` on strings: substring containment,
embedded as an infix check on the character lists. -/
def strContains (haystack needle : String) : Bool :=
  hasInfixList needle.toList haystack.toList

/-- Python `any(keyword in s for keyword in keywords)`. -/
def containsAny (s : String) (keywords : List String) : Bool :=
  keywords.any (fun k => strContains s k)

/-- The ordered keyword groups of `MorphErrorHandler.classify_error`,
paired with the `ErrorType` each group maps to, in source order. -/
def classifierGroups : List (List String × ErrorType) :=
  [ (["connection", "server", "unavailable", "unreachable"], .SERVER_UNAVAILABLE)
  , (["api key", "authentication", "unauthorized", "forbidden"], .API_KEY_INVALID)
  , (["timeout", "timed out", "deadline"], .TIMEOUT)
  , (["file lock", "locked", "busy"], .FILE_LOCK)
  , (["permission", "access denied", "not permitted"], .PERMISSION_DENIED)
  , (["memory", "out of memory", "allocation"], .MEMORY_ERROR)
  , (["network", "dns", "connection reset"], .NETWORK_ERROR)
  , (["tool mapping", "invalid tool", "unknown tool"], .TOOL_MAPPING_ERROR) ]

/-- `MorphErrorHandler.classify_error`: lowercases the message and checks
the keyword groups in the source's order; the first group with a matching
keyword wins, otherwise `UNKNOWN_ERROR`. Transcribed if-chain. -/
def classify_error (error_message : String) : ErrorType :=
  let error_lower := strToLower error_message
  if containsAny error_lower ["connection", "server", "unavailable", "unreachable"] then
    .SERVER_UNAVAILABLE
  else if containsAny error_lower ["api key", "authentication", "unauthorized", "forbidden"] then
    .API_KEY_INVALID
  else if containsAny error_lower ["timeout", "timed out", "deadline"] then
    .TIMEOUT
  else if containsAny error_lower ["file lock", "locked", "busy"] then
    .FILE_LOCK
  else if containsAny error_lower ["permission", "access denied", "not permitted"] then
    .PERMISSION_DENIED
  else if containsAny error_lower ["memory", "out of memory", "allocation"] then
    .MEMORY_ERROR
  else if containsAny error_lower ["network", "dns", "connection reset"] then
    .NETWORK_ERROR
  else if containsAny error_lower ["tool mapping", "invalid tool", "unknown tool"] then
    .TOOL_MAPPING_ERROR
  else
    .UNKNOWN_ERROR

/-- First-matching-group lookup over the documented ordered groups:
the specification's description of the classifier. -/
def classifyByGroups (error_message : String) : ErrorType :=
  let error_lower := strToLower error_message
  match classifierGroups.find? (fun g => containsAny error_lower g.1) with
  | some g => g.2
  | none => .UNKNOWN_ERROR

/-- String value of each `ErrorType`, as in the Python enum. -/
def ErrorType.value : ErrorType → String
  | .SERVER_UNAVAILABLE => "server_unavailable"
  | .API_KEY_INVALID => "api_key_invalid"
  | .TIMEOUT => "timeout"
  | .FILE_LOCK => "file_lock"
  | .PERMISSION_DENIED => "permission_denied"
  | .MEMORY_ERROR => "memory_error"
  | .NETWORK_ERROR => "network_error"
  | .TOOL_MAPPING_ERROR => "tool_mapping_error"
  | .UNKNOWN_ERROR => "unknown_error"

/-- Configuration `self.config` of `MorphErrorHandler.__init__`. -/
def max_retry_attempts : Nat := 3

/-- `config["retry_delay_seconds"]`: exponential backoff delays. -/
def retry_delay_seconds : List Nat := [1, 2, 4]

/-- `config["enable_circuit_breaker"]`. -/
def enable_circuit_breaker : Bool := true

/-- `config["circuit_breaker_failure_threshold"]`. -/
def circuit_breaker_failure_threshold : Nat := 5

/-- `config["circuit_breaker_reset_timeout"]` (seconds). -/
def circuit_breaker_reset_timeout : Int := 300

/-- `self.tool_fallback_mapping` of `MorphErrorHandler.__init__`. -/
def tool_fallback_mapping : List (String × String) :=
  [ ("mcp__morph__read_file", "Read")
  , ("mcp__morph__write_file", "Write")
  , ("mcp__morph__edit_file", "Edit")
  , ("mcp__morph__list_directory", "LS")
  , ("mcp__morph__search_files", "Glob") ]

/-- Python `dict.get(key, default)` on an association list. -/
def lookupD (m : List (String × String)) (k d : String) : String :=
  match m.find? (fun p => p.1 == k) with
  | some p => p.2
  | none => d

/-- `self.error_strategies`: error type to base fallback strategy. -/
def error_strategies : ErrorType → FallbackStrategy
  | .SERVER_UNAVAILABLE => .NATIVE_TOOL
  | .API_KEY_INVALID => .NATIVE_TOOL
  | .TIMEOUT => .RETRY_WITH_BACKOFF
  | .FILE_LOCK => .RETRY_WITH_BACKOFF
  | .PERMISSION_DENIED => .NATIVE_TOOL
  | .MEMORY_ERROR => .GRACEFUL_DEGRADATION
  | .NETWORK_ERROR => .RETRY_WITH_BACKOFF
  | .TOOL_MAPPING_ERROR => .ALTERNATIVE_TOOL
  | .UNKNOWN_ERROR => .NATIVE_TOOL

/-- Tool input dictionary, restricted to the keys the error handler and
interceptor inspect: `file_path`, `edits` (modelled by the number of
entries), `limit`, `old_string`, `new_string`. A `none` field means the
key is absent from the dict. -/
structure ToolInput where
  file_path : Option String := none
  edits : Option Nat := none
  limit : Option Nat := none
  old_string : Option String := none
  new_string : Option String := none
  deriving DecidableEq, Repr

/-- `ErrorContext` dataclass (the timestamp and session id fields play no
role in the control flow and are kept as plain data). -/
structure ErrorContext where
  tool_name : String
  tool_input : ToolInput
  error_type : ErrorType
  error_message : String
  timestamp : Int
  session_id : String
  retry_count : Nat := 0
  fallback_attempted : Bool := false
  deriving DecidableEq, Repr

/-- Per-error-type circuit-breaker record persisted in
`morph_fallback_stats.json` under `circuit_breaker[error_type]`. -/
structure CircuitState where
  failure_count : Nat := 0
  last_failure : Option Int := none
  deriving DecidableEq, Repr

/-- `MorphErrorHandler.is_circuit_breaker_open`: open iff the breaker is
enabled, the failure count reached the threshold, a last-failure time is
recorded, and strictly less than the reset timeout has elapsed since it. -/
def is_circuit_breaker_open (now : Int) (cb : ErrorType → CircuitState)
    (error_type : ErrorType) : Bool :=
  if enable_circuit_breaker = false then false
  else
    let st := cb error_type
    if st.failure_count ≥ circuit_breaker_failure_threshold then
      match st.last_failure with
      | some t => decide (now - t < circuit_breaker_reset_timeout)
      | none => false
    else false

/-- `MorphErrorHandler.update_circuit_breaker`: a failure increments the
count and stamps `last_failure := now`; a success resets the record. -/
def update_circuit_breaker (now : Int) (cb : ErrorType → CircuitState)
    (error_type : ErrorType) (is_failure : Bool) : ErrorType → CircuitState :=
  if enable_circuit_breaker = false then cb
  else fun e =>
    if e = error_type then
      if is_failure then
        { failure_count := (cb error_type).failure_count + 1, last_failure := some now }
      else
        { failure_count := 0, last_failure := none }
    else cb e

/-- `MorphErrorHandler.get_fallback_strategy`: an open circuit forces
`NATIVE_TOOL`; otherwise the table strategy, downgraded to `NATIVE_TOOL`
when it is `RETRY_WITH_BACKOFF` and the retry budget is exhausted. -/
def get_fallback_strategy (now : Int) (cb : ErrorType → CircuitState)
    (ctx : ErrorContext) : FallbackStrategy :=
  if is_circuit_breaker_open now cb ctx.error_type then .NATIVE_TOOL
  else
    let strategy := error_strategies ctx.error_type
    if ctx.retry_count ≥ max_retry_attempts then
      if strategy = .RETRY_WITH_BACKOFF then .NATIVE_TOOL else strategy
    else strategy

/-- Action dictionaries returned by the error handler, one constructor per
`action` value: `fallback`, `retry`, `split_batch`, `alternative`,
`degrade`, `fail`. The `ultimate` flag models the `ultimate_fallback: True`
key (absent, hence `false`, on ordinary fallbacks). -/
inductive HandlerAction where
  | fallback (fallback_tool : String) (fallback_input : ToolInput)
      (reason : String) (ultimate : Bool)
  | retry (retry_delay : Nat) (retry_count : Nat) (max_retries : Nat)
  | split_batch (batch_size : Nat) (original_batch_size : Nat)
  | alternative (alternative_tool : String) (alternative_input : ToolInput)
  | degrade (degraded_input : ToolInput)
  | fail (error : String) (error_type : ErrorType)
  deriving DecidableEq, Repr

/-- `MorphErrorHandler.fallback_to_native_tool`. -/
def fallback_to_native_tool (ctx : ErrorContext) : HandlerAction :=
  let native_tool := lookupD tool_fallback_mapping ctx.tool_name "Read"
  .fallback native_tool ctx.tool_input
    ("MorphLLM " ++ ctx.error_type.value ++ ": " ++ ctx.error_message) false

/-- `MorphErrorHandler.retry_with_backoff`. -/
def retry_with_backoff (ctx : ErrorContext) : HandlerAction :=
  if ctx.retry_count ≥ max_retry_attempts then fallback_to_native_tool ctx
  else
    let delay := retry_delay_seconds.getD
      (min ctx.retry_count (retry_delay_seconds.length - 1)) 0
    .retry delay (ctx.retry_count + 1) max_retry_attempts

/-- `MorphErrorHandler.handle_batch_operation`. -/
def handle_batch_operation (ctx : ErrorContext) : HandlerAction :=
  match ctx.tool_input.edits with
  | some n =>
      if n > 1 then .split_batch (max 1 (n / 2)) n
      else fallback_to_native_tool ctx
  | none => fallback_to_native_tool ctx

/-- `self.adapt_input_for_alternative` inside `use_alternative_tool`:
for the write-file alternative the edit-specific keys are removed. -/
def adapt_input_for_alternative (original_input : ToolInput)
    (alternative_tool : String) : ToolInput :=
  if alternative_tool = "mcp__morph__write_file" then
    { original_input with old_string := none, new_string := none }
  else original_input

/-- `MorphErrorHandler.use_alternative_tool`. -/
def use_alternative_tool (ctx : ErrorContext) : HandlerAction :=
  if ctx.error_type = .TOOL_MAPPING_ERROR then
    let alternative_tools : List (String × String) :=
      [ ("mcp__morph__edit_file", "mcp__morph__write_file")
      , ("mcp__morph__search_files", "mcp__morph__list_directory") ]
    match alternative_tools.find? (fun p => p.1 == ctx.tool_name) with
    | some p =>
        .alternative p.2 (adapt_input_for_alternative ctx.tool_input p.2)
    | none => fallback_to_native_tool ctx
  else fallback_to_native_tool ctx

/-- `MorphErrorHandler.graceful_degradation`. -/
def graceful_degradation (ctx : ErrorContext) : HandlerAction :=
  if ctx.error_type = .MEMORY_ERROR then
    let modified_input :=
      if ctx.tool_input.limit = none then
        { ctx.tool_input with limit := some 1000 }
      else ctx.tool_input
    .degrade modified_input
  else fallback_to_native_tool ctx

/-- `MorphErrorHandler.fail_fast`. -/
def fail_fast (ctx : ErrorContext) : HandlerAction :=
  .fail ctx.error_message ctx.error_type

/-- `MorphErrorHandler.execute_fallback_strategy`. -/
def execute_fallback_strategy (ctx : ErrorContext)
    (strategy : FallbackStrategy) : HandlerAction :=
  match strategy with
  | .NATIVE_TOOL => fallback_to_native_tool ctx
  | .RETRY_WITH_BACKOFF => retry_with_backoff ctx
  | .BATCH_OPERATION => handle_batch_operation ctx
  | .ALTERNATIVE_TOOL => use_alternative_tool ctx
  | .GRACEFUL_DEGRADATION => graceful_degradation ctx
  | .FAIL_FAST => fail_fast ctx

/-- `MorphErrorHandler.create_error_context` (retry count starts at 0). -/
def create_error_context (now : Int) (session_id tool_name : String)
    (tool_input : ToolInput) (error_message : String) : ErrorContext :=
  { tool_name := tool_name
  , tool_input := tool_input
  , error_type := classify_error error_message
  , error_message := error_message
  , timestamp := now
  , session_id := session_id }

/-- `MorphErrorHandler.handle_error`: the whole select+execute sequence
sits in a `try`; `internal_failure = some e` models any internal step of
that sequence raising exception `e`, in which case the `except` branch
returns the ultimate-fallback descriptor. -/
def handle_error (internal_failure : Option String) (now : Int)
    (cb : ErrorType → CircuitState) (session_id tool_name : String)
    (tool_input : ToolInput) (error_message : String) : HandlerAction :=
  match internal_failure with
  | some e =>
      .fallback "Read" tool_input ("Error handler failure: " ++ e) true
  | none =>
      let ctx := create_error_context now session_id tool_name tool_input error_message
      execute_fallback_strategy ctx (get_fallback_strategy now cb ctx)

/-- C1 counterexample: the claim says `classify_error "Connection timed out"`
returns `TIMEOUT`; in fact the connectivity group's keyword `"connection"`
matches first, so the classifier returns `SERVER_UNAVAILABLE`, not
`TIMEOUT`. -/
theorem C1_counterexample :
    ¬ classify_error "Connection timed out" = ErrorType.TIMEOUT := by
  decide

/-- C1 (amended): classification resolves ambiguous multi-keyword messages
by the documented group order with the first matching group winning
(`classify_error` agrees with first-match lookup over the ordered groups);
consequently `classify_error "Connection timed out"` is `SERVER_UNAVAILABLE`
(the connectivity group precedes the timeout group), and
`classify_error ""` is `UNKNOWN_ERROR`. -/
theorem C1_classifier_first_group_wins :
    (∀ msg : String, classify_error msg = classifyByGroups msg) ∧
    classify_error "Connection timed out" = ErrorType.SERVER_UNAVAILABLE ∧
    classify_error "" = ErrorType.UNKNOWN_ERROR := by
  refine ⟨fun msg => ?_, by decide, by decide⟩
  unfold classify_error classifyByGroups classifierGroups
  cases h1 : containsAny (strToLower msg) ["connection", "server", "unavailable", "unreachable"] <;>
  cases h2 : containsAny (strToLower msg) ["api key", "authentication", "unauthorized", "forbidden"] <;>
  cases h3 : containsAny (strToLower msg) ["timeout", "timed out", "deadline"] <;>
  cases h4 : containsAny (strToLower msg) ["file lock", "locked", "busy"] <;>
  cases h5 : containsAny (strToLower msg) ["permission", "access denied", "not permitted"] <;>
  cases h6 : containsAny (strToLower msg) ["memory", "out of memory", "allocation"] <;>
  cases h7 : containsAny (strToLower msg) ["network", "dns", "connection reset"] <;>
  cases h8 : containsAny (strToLower msg) ["tool mapping", "invalid tool", "unknown tool"] <;>
  simp [List.find?, h1, h2, h3, h4, h5, h6, h7, h8]

/-- C3: whenever the strategy table selects `RETRY_WITH_BACKOFF` for the
error kind and the retry count has reached `max_retry_attempts` (3), the
selector returns `NATIVE_TOOL` instead; and for every error kind, an open
circuit breaker forces `NATIVE_TOOL` regardless of the table entry. -/
theorem C3_fallback_selection (now : Int) (cb : ErrorType → CircuitState)
    (ctx : ErrorContext) :
    (error_strategies ctx.error_type = FallbackStrategy.RETRY_WITH_BACKOFF →
      ctx.retry_count ≥ max_retry_attempts →
      get_fallback_strategy now cb ctx = FallbackStrategy.NATIVE_TOOL) ∧
    (is_circuit_breaker_open now cb ctx.error_type = true →
      get_fallback_strategy now cb ctx = FallbackStrategy.NATIVE_TOOL) := by
  constructor
  · intro hs hr
    unfold get_fallback_strategy
    split
    · rfl
    · simp [hs, hr]
  · intro ho
    unfold get_fallback_strategy
    simp [ho]

/-- C3 witness: a `TIMEOUT` context with `retry_count = 3` and a closed
breaker selects `NATIVE_TOOL`; an `UNKNOWN_ERROR` context with an open
breaker (5 failures recorded just now) also selects `NATIVE_TOOL`. -/
theorem C3_fallback_selection_witness :
    get_fallback_strategy 0 (fun _ => {})
      { tool_name := "mcp__morph__read_file", tool_input := {}
      , error_type := .TIMEOUT, error_message := "m", timestamp := 0
      , session_id := "s", retry_count := 3 } = FallbackStrategy.NATIVE_TOOL ∧
    get_fallback_strategy 0 (fun _ => ⟨5, some 0⟩)
      { tool_name := "mcp__morph__read_file", tool_input := {}
      , error_type := .UNKNOWN_ERROR, error_message := "m", timestamp := 0
      , session_id := "s" } = FallbackStrategy.NATIVE_TOOL := by
  constructor
  · exact (C3_fallback_selection 0 (fun _ => {}) _).1 (by decide) (by decide)
  · exact (C3_fallback_selection 0 (fun _ => ⟨5, some 0⟩) _).2 (by decide)

/-- C4: for every error kind, the circuit breaker is open iff the persisted
failure count is at least the threshold (5) and strictly less than the
reset timeout (300 s) has elapsed since the recorded last failure;
recording a failure increments the count and stamps the failure time, and
recording a success resets the record, making the breaker closed at every
subsequent instant. -/
theorem C4_circuit_breaker_invariant (now : Int)
    (cb : ErrorType → CircuitState) (e : ErrorType) :
    (is_circuit_breaker_open now cb e = true ↔
      (cb e).failure_count ≥ circuit_breaker_failure_threshold ∧
      ∃ t, (cb e).last_failure = some t ∧ now - t < circuit_breaker_reset_timeout) ∧
    (update_circuit_breaker now cb e true e =
      { failure_count := (cb e).failure_count + 1, last_failure := some now }) ∧
    (update_circuit_breaker now cb e false e =
      { failure_count := 0, last_failure := none }) ∧
    (∀ now2 : Int,
      is_circuit_breaker_open now2 (update_circuit_breaker now cb e false) e = false) := by
  refine ⟨?_, ?_, ?_, ?_⟩
  · by_cases hf : (cb e).failure_count ≥ circuit_breaker_failure_threshold
    · cases hl : (cb e).last_failure with
      | none => simp [is_circuit_breaker_open, enable_circuit_breaker, hf, hl]
      | some t => simp [is_circuit_breaker_open, enable_circuit_breaker, hf, hl]
    · simp [is_circuit_breaker_open, enable_circuit_breaker, hf]
  · simp [update_circuit_breaker, enable_circuit_breaker]
  · simp [update_circuit_breaker, enable_circuit_breaker]
  · intro now2
    simp [is_circuit_breaker_open, update_circuit_breaker, enable_circuit_breaker,
      circuit_breaker_failure_threshold]

/-- C5: `handle_error` always returns an action descriptor, and whenever
any internal step of the select+execute sequence raises, the `except`
branch returns the ultimate-fallback descriptor: action `fallback`, the
default read tool `"Read"`, and `ultimate_fallback` set. -/
theorem C5_handle_error_ultimate_fallback (failure : Option String)
    (now : Int) (cb : ErrorType → CircuitState) (session_id tool_name : String)
    (tool_input : ToolInput) (error_message : String) :
    (∃ a : HandlerAction,
      handle_error failure now cb session_id tool_name tool_input error_message = a) ∧
    (∀ e, failure = some e →
      handle_error failure now cb session_id tool_name tool_input error_message =
        HandlerAction.fallback "Read" tool_input ("Error handler failure: " ++ e) true) := by
  refine ⟨⟨_, rfl⟩, ?_⟩
  intro e he
  subst he
  rfl

/-- C5 witness: a concrete internal failure `"boom"` yields exactly the
ultimate-fallback descriptor. -/
theorem C5_handle_error_ultimate_fallback_witness :
    handle_error (some "boom") 0 (fun _ => {}) "s" "Read" {} "m" =
      HandlerAction.fallback "Read" {} ("Error handler failure: " ++ "boom") true :=
  (C5_handle_error_ultimate_fallback (some "boom") 0 (fun _ => {}) "s" "Read" {} "m").2
    "boom" rfl

section Cache

variable {V : Type}

/-- `LRUCache` from `performance_optimizer.py`: the `OrderedDict` is an
association list `(key, value, timestamp)` in recency order — the head is
the least recently used entry, the last element the most recently used.
Timestamps (`time.time()`) are modelled as integers. -/
structure LRUCache (V : Type) where
  max_size : Nat
  ttl_seconds : Int
  entries : List (String × V × Int) := []
  hits : Nat := 0
  misses : Nat := 0

/-- Removing the entry for a key (Python `del self.cache[key]`, and the
removal half of `move_to_end`). -/
def removeKey (l : List (String × V × Int)) (k : String) :
    List (String × V × Int) :=
  l.filter (fun p => !(p.1 == k))

/-- `LRUCache.get`: a fresh entry is moved to the most-recently-used end
and counted as a hit; an expired entry is deleted and counted as a miss;
an absent key is a miss. -/
def LRUCache.get (c : LRUCache V) (k : String) (now : Int) :
    Option V × LRUCache V :=
  match c.entries.find? (fun p => p.1 == k) with
  | some (_, v, ts) =>
      if now - ts < c.ttl_seconds then
        (some v,
          { c with entries := removeKey c.entries k ++ [(k, v, ts)]
                 , hits := c.hits + 1 })
      else
        (none, { c with entries := removeKey c.entries k, misses := c.misses + 1 })
  | none => (none, { c with misses := c.misses + 1 })

/-- `LRUCache.set`: `move_to_end` (when present) followed by assignment
puts the key at the most-recently-used end with a fresh timestamp; if the
size then exceeds `max_size`, `popitem(last=False)` evicts the head, the
least recently used entry. -/
def LRUCache.set (c : LRUCache V) (k : String) (v : V) (now : Int) :
    LRUCache V :=
  let inserted := removeKey c.entries k ++ [(k, v, now)]
  if inserted.length > c.max_size then { c with entries := inserted.tail }
  else { c with entries := inserted }

/-- Result of `LRUCache.get_stats`. -/
structure CacheStats where
  hits : Nat
  misses : Nat
  hit_rate : ℚ
  size : Nat
  max_size : Nat

/-- `LRUCache.get_stats`: `hit_rate` is `hits / total * 100` when there was
traffic, else `0`. -/
def LRUCache.get_stats (c : LRUCache V) : CacheStats :=
  let total := c.hits + c.misses
  { hits := c.hits
  , misses := c.misses
  , hit_rate := if total > 0 then (c.hits : ℚ) / (total : ℚ) * 100 else 0
  , size := c.entries.length
  , max_size := c.max_size }

/-- One cache operation of a client session. -/
inductive CacheOp (V : Type) where
  | get (k : String) (now : Int)
  | set (k : String) (v : V) (now : Int)

/-- Apply one operation to the cache state. -/
def applyOp (c : LRUCache V) : CacheOp V → LRUCache V
  | .get k now => (LRUCache.get c k now).2
  | .set k v now => LRUCache.set c k v now

/-- Run a sequence of operations. -/
def runOps (c : LRUCache V) (ops : List (CacheOp V)) : LRUCache V :=
  ops.foldl applyOp c

/-- A cache as created by `LRUCache.__init__`. -/
def initCache (max_size : Nat) (ttl_seconds : Int) : LRUCache V :=
  { max_size := max_size, ttl_seconds := ttl_seconds }

/-- Number of `get` operations in a session. -/
def numGets (ops : List (CacheOp V)) : Nat :=
  ops.countP (fun op => match op with | .get _ _ => true | .set _ _ _ => false)

theorem length_removeKey_le (l : List (String × V × Int)) (k : String) :
    (removeKey l k).length ≤ l.length :=
  List.length_filter_le _ l

theorem length_removeKey_lt (l : List (String × V × Int)) (k : String)
    (h : (l.find? (fun p => p.1 == k)).isSome) :
    (removeKey l k).length < l.length := by
  induction l with
  | nil => simp [List.find?] at h
  | cons a l ih =>
      by_cases ha : (a.1 == k) = true
      · simp only [removeKey, List.filter_cons, ha]
        simpa using Nat.lt_succ_of_le (List.length_filter_le _ l)
      · simp only [List.find?_cons, ha] at h
        simp only [removeKey, List.filter_cons, ha]
        simpa [removeKey] using ih h

theorem applyOp_max_size (c : LRUCache V) (op : CacheOp V) :
    (applyOp c op).max_size = c.max_size := by
  cases op with
  | get k now =>
      simp only [applyOp, LRUCache.get]
      split
      · split <;> rfl
      · rfl
  | set k v now =>
      simp only [applyOp, LRUCache.set]
      split <;> rfl

theorem applyOp_size_le (c : LRUCache V) (op : CacheOp V)
    (h : c.entries.length ≤ c.max_size) :
    (applyOp c op).entries.length ≤ c.max_size := by
  cases op with
  | get k now =>
      simp only [applyOp, LRUCache.get]
      split
      · rename_i p v ts hf
        have hlt := length_removeKey_lt c.entries k (by simp [hf])
        split
        · simp only []
          simp [removeKey] at hlt ⊢
          omega
        · simp only []
          simp [removeKey] at hlt ⊢
          omega
      · simpa using h
  | set k v now =>
      have hrk := length_removeKey_le c.entries k
      simp only [LRUCache.set, applyOp]
      split
      · rename_i hgt
        simp at hgt ⊢
        omega
      · rename_i hle
        simp at hle ⊢
        omega

theorem runOps_size_le (ops : List (CacheOp V)) :
    ∀ c : LRUCache V, c.entries.length ≤ c.max_size →
      (runOps c ops).entries.length ≤ c.max_size ∧
      (runOps c ops).max_size = c.max_size := by
  induction ops with
  | nil => intro c h; exact ⟨h, rfl⟩
  | cons op ops ih =>
      intro c h
      have hstep := applyOp_size_le c op h
      have hmax := applyOp_max_size c op
      have := ih (applyOp c op) (by rw [hmax]; exact hstep)
      refine ⟨?_, ?_⟩
      · simpa [runOps, hmax] using this.1
      · simpa [runOps, hmax] using this.2

theorem applyOp_hits_misses (c : LRUCache V) (op : CacheOp V) :
    (applyOp c op).hits + (applyOp c op).misses =
      c.hits + c.misses +
        (match op with | .get _ _ => 1 | .set _ _ _ => 0) := by
  cases op with
  | get k now =>
      simp only [applyOp, LRUCache.get]
      split
      · split <;> (simp; omega)
      · simp; omega
  | set k v now =>
      simp only [applyOp, LRUCache.set]
      split <;> simp

theorem runOps_hits_misses (ops : List (CacheOp V)) :
    ∀ c : LRUCache V,
      (runOps c ops).hits + (runOps c ops).misses =
        c.hits + c.misses + numGets ops := by
  induction ops with
  | nil => intro c; simp [runOps, numGets]
  | cons op ops ih =>
      intro c
      have hstep := applyOp_hits_misses c op
      have := ih (applyOp c op)
      cases op with
      | get k now =>
          simp only [runOps, List.foldl_cons] at *
          rw [this, hstep]
          simp [numGets, List.countP_cons]
          omega
      | set k v now =>
          simp only [runOps, List.foldl_cons] at *
          rw [this, hstep]
          simp [numGets, List.countP_cons]

/-- C2 counterexample: the claim says `hit_rate` equals the fraction
`hits / (hits + misses)`; after one `set` and one fresh `get` the cache has
1 hit and 0 misses, so the claimed value is `1 / (1 + 0) = 1`, but
`get_stats` reports a percentage, so `hit_rate` is not `1` (it is 100). -/
theorem C2_counterexample :
    (LRUCache.get_stats (runOps (initCache 10 300)
        ([CacheOp.set "a" 0 0, CacheOp.get "a" 0] : List (CacheOp Nat)))).hits = 1 ∧
    (LRUCache.get_stats (runOps (initCache 10 300)
        ([CacheOp.set "a" 0 0, CacheOp.get "a" 0] : List (CacheOp Nat)))).misses = 0 ∧
    ¬ (LRUCache.get_stats (runOps (initCache 10 300)
        ([CacheOp.set "a" 0 0, CacheOp.get "a" 0] : List (CacheOp Nat)))).hit_rate
      = 1 / (1 + 0) := by
  have h1 : (runOps (initCache 10 300)
      ([CacheOp.set "a" 0 0, CacheOp.get "a" 0] : List (CacheOp Nat))).hits = 1 := by
    decide
  have h2 : (runOps (initCache 10 300)
      ([CacheOp.set "a" 0 0, CacheOp.get "a" 0] : List (CacheOp Nat))).misses = 0 := by
    decide
  refine ⟨by simp [LRUCache.get_stats, h1], by simp [LRUCache.get_stats, h2], ?_⟩
  simp only [LRUCache.get_stats, h1, h2]
  norm_num

/-- C2 (amended): `get_stats` reports `hit_rate` as a percentage:
for every session of operations from a fresh cache, `hit_rate` times the
total number of lookups equals `hits * 100`; it is `0` when no `get` has
been performed yet, and equals `hits / (hits + misses) * 100` as soon as
at least one `get` has happened. -/
theorem C2_hit_rate_is_percentage (maxs : Nat) (ttl : Int)
    (ops : List (CacheOp V)) :
    ((LRUCache.get_stats (runOps (initCache maxs ttl) ops)).hit_rate *
        (((runOps (initCache maxs ttl) ops).hits : ℚ) +
          ((runOps (initCache maxs ttl) ops).misses : ℚ)) =
      ((runOps (initCache maxs ttl) ops).hits : ℚ) * 100) ∧
    (numGets ops = 0 →
      (LRUCache.get_stats (runOps (initCache maxs ttl) ops)).hit_rate = 0) ∧
    (0 < numGets ops →
      (LRUCache.get_stats (runOps (initCache maxs ttl) ops)).hit_rate =
        ((runOps (initCache maxs ttl) ops).hits : ℚ) /
          (((runOps (initCache maxs ttl) ops).hits : ℚ) +
            ((runOps (initCache maxs ttl) ops).misses : ℚ)) * 100) := by
  have htot : (runOps (initCache maxs ttl) ops).hits +
      (runOps (initCache maxs ttl) ops).misses = numGets ops := by
    simpa [initCache] using runOps_hits_misses ops (initCache maxs ttl)
  refine ⟨?_, ?_, ?_⟩
  · by_cases ht : 0 < (runOps (initCache maxs ttl) ops).hits +
        (runOps (initCache maxs ttl) ops).misses
    · have hne : (((runOps (initCache maxs ttl) ops).hits : ℚ) +
          ((runOps (initCache maxs ttl) ops).misses : ℚ)) ≠ 0 := by
        exact_mod_cast Nat.pos_iff_ne_zero.mp ht
      simp only [LRUCache.get_stats, if_pos ht]
      push_cast
      field_simp
    · have h0 : (runOps (initCache maxs ttl) ops).hits = 0 ∧
          (runOps (initCache maxs ttl) ops).misses = 0 := by omega
      simp [LRUCache.get_stats, h0.1, h0.2]
  · intro hg
    have : (runOps (initCache maxs ttl) ops).hits +
        (runOps (initCache maxs ttl) ops).misses = 0 := by omega
    simp [LRUCache.get_stats, this]
  · intro hg
    have ht : 0 < (runOps (initCache maxs ttl) ops).hits +
        (runOps (initCache maxs ttl) ops).misses := by omega
    simp only [LRUCache.get_stats, if_pos ht]
    push_cast
    ring_nf

/-- C2 witness for the hypothesised parts: one missing `get` gives one
lookup, and `hit_rate` equals the percentage formula there. -/
theorem C2_hit_rate_is_percentage_witness :
    0 < numGets ([CacheOp.get "a" 0] : List (CacheOp Nat)) ∧
    (LRUCache.get_stats (runOps (initCache 10 300)
        ([CacheOp.get "a" 0] : List (CacheOp Nat)))).hit_rate =
      ((runOps (initCache 10 300) ([CacheOp.get "a" 0] : List (CacheOp Nat))).hits : ℚ) /
        (((runOps (initCache 10 300) ([CacheOp.get "a" 0] : List (CacheOp Nat))).hits : ℚ) +
          ((runOps (initCache 10 300) ([CacheOp.get "a" 0] : List (CacheOp Nat))).misses : ℚ)) * 100 :=
  ⟨by decide, (C2_hit_rate_is_percentage 10 300 _).2.2 (by decide)⟩

/-- C7: for every sequence of `set`/`get` operations from a fresh cache of
capacity `maxs`, the number of stored entries stays at most `maxs`; and
when a `set` of a fresh key hits a full cache, the evicted entry is
exactly the head of the recency list — the least recently used one — while
all younger entries survive. -/
theorem C7_lru_size_bound_and_eviction (maxs : Nat) (ttl : Int)
    (ops : List (CacheOp V)) :
    (runOps (initCache maxs ttl) ops).entries.length ≤ maxs ∧
    (∀ (c : LRUCache V) (k : String) (v : V) (now : Int),
      c.entries.length = c.max_size → 0 < c.max_size →
      c.entries.find? (fun p => p.1 == k) = none →
      (LRUCache.set c k v now).entries = c.entries.tail ++ [(k, v, now)]) := by
  constructor
  · exact (runOps_size_le ops (initCache maxs ttl) (by simp [initCache])).1
  · intro c k v now hlen hpos hfind
    have hrk : removeKey c.entries k = c.entries := by
      refine List.filter_eq_self.mpr ?_
      intro a ha
      have := List.find?_eq_none.mp hfind a ha
      simpa using this
    simp only [LRUCache.set, hrk]
    have hgt : (c.entries ++ [(k, v, now)]).length > c.max_size := by
      simp [hlen]
    rw [if_pos hgt]
    cases hE : c.entries with
    | nil =>
        rw [hE] at hlen
        simp at hlen
        omega
    | cons a l => simp

/-- C7 witness: a three-`set` session on capacity 2 keeps at most 2
entries, and a fresh `set` on a full two-entry cache evicts the head. -/
theorem C7_lru_size_bound_and_eviction_witness :
    (runOps (initCache 2 300)
        ([CacheOp.set "a" 0 0, CacheOp.set "b" 1 1, CacheOp.set "c" 2 2] :
          List (CacheOp Nat))).entries.length ≤ 2 ∧
    (LRUCache.set
        ({ max_size := 2, ttl_seconds := 300
         , entries := [("a", 0, 0), ("b", 1, 0)] } : LRUCache Nat) "c" 2 5).entries =
      ({ max_size := 2, ttl_seconds := 300
       , entries := [("a", 0, 0), ("b", 1, 0)] } : LRUCache Nat).entries.tail ++ [("c", 2, 5)] :=
  ⟨(C7_lru_size_bound_and_eviction 2 300 _).1,
   (C7_lru_size_bound_and_eviction 2 300 ([] : List (CacheOp Nat))).2 _ "c" 2 5
     (by decide) (by decide) (by decide)⟩

end Cache

section Monitor

/-- `PerformanceMonitor.metrics`: a dict from operation name to the list
of recorded durations (ms). Durations (Python floats) are modelled as
rationals; `none` means the operation was never recorded. -/
def Metrics : Type := String → Option (List ℚ)

/-- The metrics of a fresh `PerformanceMonitor`. -/
def monitorInit : Metrics := fun _ => none

/-- `PerformanceMonitor.record_timing`: append the duration to the
operation's series and keep only the most recent 1000 measurements. -/
def PerformanceMonitor.record_timing (m : Metrics) (operation : String)
    (duration_ms : ℚ) : Metrics :=
  fun o =>
    if o = operation then
      let l := (m operation).getD [] ++ [duration_ms]
      some (if l.length > 1000 then l.drop (l.length - 1000) else l)
    else m o

/-- Result dictionary of `PerformanceMonitor.get_stats` for a non-empty
series. -/
structure OpStats where
  count : Nat
  min : ℚ
  max : ℚ
  avg : ℚ
  p50 : ℚ
  p95 : ℚ
  p99 : ℚ
  deriving DecidableEq, Repr

/-- Python `min` over a list; only applied to non-empty lists (Python
raises on empty input, which `get_stats` rules out beforehand). -/
def pythonMin : List ℚ → ℚ
  | [] => 0
  | x :: xs => xs.foldl min x

/-- Python `max` over a list; only applied to non-empty lists. -/
def pythonMax : List ℚ → ℚ
  | [] => 0
  | x :: xs => xs.foldl max x

/-- Index used for `p50`: `len(timings_sorted) // 2`. -/
def p50Index (n : Nat) : Nat := n / 2

/-- Index used for `p95`: `int(len * 0.95)`. For every window length the
monitor can hold (`n ≤ 1000`) the float product `n * 0.95` rounds to a
double within half an ulp of the exact value, so truncation agrees with
the exact floor `n * 95 / 100`. -/
def p95Index (n : Nat) : Nat := n * 95 / 100

/-- Index used for `p99`: `int(len * 0.99)`, exact floor as for `p95`. -/
def p99Index (n : Nat) : Nat := n * 99 / 100

/-- `PerformanceMonitor.get_stats`: `{}` (here `none`) when the operation
is unknown or its series is empty; otherwise count/min/max/avg and the
floor-indexed percentiles of the sorted window. -/
def PerformanceMonitor.get_stats (m : Metrics) (operation : String) :
    Option OpStats :=
  match m operation with
  | none => none
  | some timings =>
      match timings with
      | [] => none
      | _ :: _ =>
          let timings_sorted := List.insertionSort (· ≤ ·) timings
          some { count := timings.length
               , min := pythonMin timings
               , max := pythonMax timings
               , avg := timings.sum / (timings.length : ℚ)
               , p50 := timings_sorted.getD (p50Index timings_sorted.length) 0
               , p95 := timings_sorted.getD (p95Index timings_sorted.length) 0
               , p99 := timings_sorted.getD (p99Index timings_sorted.length) 0 }

/-- The sample values of the known fixture: 1, 2, ..., 100. -/
def fixtureValues : List ℚ :=
  (List.range' 1 100).map (fun (i : Nat) => (i : ℚ))

/-- The known fixture: the 100 samples 1..100 recorded in order for one
operation on a fresh monitor. -/
def percentileFixture : Metrics :=
  fixtureValues.foldl
    (fun acc d => PerformanceMonitor.record_timing acc "op" d)
    monitorInit

/-- C8: `get_stats` computes `p95` and `p99` by floor-indexed selection
over the sorted window: against any sorted rearrangement `l` of the
series, `p95` is `l[floor(n * 0.95)]` and `p99` is `l[floor(n * 0.99)]`;
on the fixture of 100 samples 1..100 this gives `p95 = 96` (the sorted
sample at index 95) and `p99 = 100`. -/
theorem C8_percentiles_floor_indexed :
    (∀ (m : Metrics) (op : String) (timings : List ℚ),
      m op = some timings → timings ≠ [] →
      ∀ l : List ℚ, l.Perm timings → l.Sorted (· ≤ ·) →
        (PerformanceMonitor.get_stats m op).map OpStats.p95 =
          some (l.getD (p95Index timings.length) 0) ∧
        (PerformanceMonitor.get_stats m op).map OpStats.p99 =
          some (l.getD (p99Index timings.length) 0)) ∧
    (PerformanceMonitor.get_stats percentileFixture "op").map OpStats.p95 = some 96 ∧
    (PerformanceMonitor.get_stats percentileFixture "op").map OpStats.p99 = some 100 := by
  refine ⟨?_, by decide, by decide⟩
  intro m op timings hm hne l hperm hsorted
  rcases timings with _ | ⟨t, ts⟩
  · exact absurd rfl hne
  · have hl : l = List.insertionSort (· ≤ ·) (t :: ts) := by
      refine List.eq_of_perm_of_sorted ?_ hsorted (List.sorted_insertionSort _ _)
      exact hperm.trans (List.perm_insertionSort _ _).symm
    have hlen : (List.insertionSort (· ≤ ·) (t :: ts)).length = (t :: ts).length :=
      (List.perm_insertionSort (· ≤ ·) (t :: ts)).length_eq
    simp only [PerformanceMonitor.get_stats, hm, Option.map_some]
    rw [hl, hlen]
    exact ⟨rfl, rfl⟩

/-- C8 witness: the universally quantified part applied to the fixture
series itself (which is already sorted). -/
theorem C8_percentiles_floor_indexed_witness :
    (PerformanceMonitor.get_stats percentileFixture "op").map OpStats.p95 =
      some (fixtureValues.getD (p95Index fixtureValues.length) 0) ∧
    (PerformanceMonitor.get_stats percentileFixture "op").map OpStats.p99 =
      some (fixtureValues.getD (p99Index fixtureValues.length) 0) := by
  have hsorted : fixtureValues.Sorted (· ≤ ·) := by
    refine List.Pairwise.map _ ?_ (List.pairwise_lt_range' 1 100)
    intro a b hab
    have hq : (a : ℚ) < (b : ℚ) := by exact_mod_cast hab
    linarith
  exact C8_percentiles_floor_indexed.1 percentileFixture "op" fixtureValues
    (by decide) (by decide) fixtureValues (List.Perm.refl _) hsorted

/-- C9: `get_stats` is total: it returns the empty result for an unknown
operation and for an empty series, the three percentile indices are
strictly below the window length whenever the series is non-empty (so the
lookups into the sorted window stay in bounds), and every non-empty series
produces a result. -/
theorem C9_get_stats_total :
    (∀ (m : Metrics) (op : String), m op = none →
      PerformanceMonitor.get_stats m op = none) ∧
    (∀ (m : Metrics) (op : String), m op = some [] →
      PerformanceMonitor.get_stats m op = none) ∧
    (∀ n : Nat, 0 < n → p50Index n < n ∧ p95Index n < n ∧ p99Index n < n) ∧
    (∀ (m : Metrics) (op : String) (timings : List ℚ),
      m op = some timings → timings ≠ [] →
      (PerformanceMonitor.get_stats m op).isSome = true) := by
  refine ⟨?_, ?_, ?_, ?_⟩
  · intro m op h
    simp [PerformanceMonitor.get_stats, h]
  · intro m op h
    simp [PerformanceMonitor.get_stats, h]
  · intro n hn
    refine ⟨Nat.div_lt_self hn (by norm_num), ?_, ?_⟩
    · rw [p95Index, Nat.div_lt_iff_lt_mul (by norm_num)]
      omega
    · rw [p99Index, Nat.div_lt_iff_lt_mul (by norm_num)]
      omega
  · intro m op timings hm hne
    rcases timings with _ | ⟨t, ts⟩
    · exact absurd rfl hne
    · simp [PerformanceMonitor.get_stats, hm]

/-- C9 witness: unknown operation gives the empty result; for a singleton
window all three indices are 0 and in bounds; a one-sample series yields a
result. -/
theorem C9_get_stats_total_witness :
    PerformanceMonitor.get_stats monitorInit "op" = none ∧
    (p50Index 1 < 1 ∧ p95Index 1 < 1 ∧ p99Index 1 < 1) ∧
    (PerformanceMonitor.get_stats
        (PerformanceMonitor.record_timing monitorInit "op" 5) "op").isSome = true :=
  ⟨C9_get_stats_total.1 monitorInit "op" rfl,
   C9_get_stats_total.2.2.1 1 (by decide),
   C9_get_stats_total.2.2.2 (PerformanceMonitor.record_timing monitorInit "op" 5)
     "op" [5] (by decide) (by decide)⟩

end Monitor

section Interceptor

/-- `TOOL_MAPPING` from `morph_tool_interceptor.py`: native tool to
MorphLLM equivalent. -/
def TOOL_MAPPING : List (String × String) :=
  [ ("Read", "mcp__morph__read_file")
  , ("Write", "mcp__morph__write_file")
  , ("Edit", "mcp__morph__edit_file")
  , ("LS", "mcp__morph__list_directory")
  , ("Glob", "mcp__morph__search_files")
  , ("MultiEdit", "mcp__morph__edit_file") ]

/-- Python `tool_name in TOOL_MAPPING` (key membership). -/
def inToolMapping (tool_name : String) : Bool :=
  (TOOL_MAPPING.find? (fun p => p.1 == tool_name)).isSome

/-- `self.session_stats` counters of `MorphToolInterceptor`. -/
structure SessionStats where
  total_operations : Nat := 0
  morph_operations : Nat := 0
  native_operations : Nat := 0
  fallback_operations : Nat := 0
  deriving DecidableEq, Repr

/-- Filesystem environment visible to the interceptor:
`fileSize p = some sz` models an existing file of `sz` bytes, `none` a
missing path (or an `OSError`, which the source swallows). -/
structure FsEnv where
  fileSize : String → Option Nat

/-- `MorphToolInterceptor.is_batch_operation`: an `edits` key with at
least `AUTO_ACTIVATION_THRESHOLDS["batch_edits"] = 3` entries. -/
def is_batch_operation (tool_input : ToolInput) : Bool :=
  match tool_input.edits with
  | some n => n ≥ 3
  | none => false

/-- `MorphToolInterceptor.is_large_directory_operation`: the source's
heuristic treats every directory operation as large. -/
def is_large_directory_operation (_tool_input : ToolInput) : Bool :=
  true

/-- `MorphToolInterceptor.is_performance_critical_operation`: a
Read/Write/Edit on an existing file over 1 MiB, or a MultiEdit with more
than one edit. -/
def is_performance_critical_operation (env : FsEnv) (tool_name : String)
    (tool_input : ToolInput) : Bool :=
  (if (tool_name == "Read" || tool_name == "Write" || tool_name == "Edit") then
    match tool_input.file_path with
    | some p =>
        match env.fileSize p with
        | some sz => sz > 1024 * 1024
        | none => false
    | none => false
  else false) ||
  (tool_name == "MultiEdit" && tool_input.edits.getD 0 > 1)

/-- `MorphToolInterceptor.should_auto_activate`: only for mapped
filesystem tools; fires on the session-operations threshold (5), on batch
MultiEdits, on LS directory scans, or with `--morph-fast` on
performance-critical operations. -/
def should_auto_activate (stats : SessionStats) (env : FsEnv)
    (tool_name : String) (tool_input : ToolInput) (flags : List String) : Bool :=
  if !(inToolMapping tool_name) then false
  else if stats.total_operations ≥ 5 then true
  else if tool_name == "MultiEdit" && is_batch_operation tool_input then true
  else if tool_name == "LS" && is_large_directory_operation tool_input then true
  else if flags.contains "--morph-fast" &&
      is_performance_critical_operation env tool_name tool_input then true
  else false

/-- `MorphToolInterceptor.should_intercept`: explicit flags are checked
first — `--no-morph` disables interception outright, then `--morph-only`,
then `--morph`/`--morphllm`; otherwise auto-activation decides. -/
def should_intercept (stats : SessionStats) (env : FsEnv)
    (tool_name : String) (tool_input : ToolInput) (flags : List String) : Bool :=
  if flags.contains "--no-morph" then false
  else if flags.contains "--morph-only" then inToolMapping tool_name
  else if flags.contains "--morph" || flags.contains "--morphllm" then
    inToolMapping tool_name
  else if should_auto_activate stats env tool_name tool_input flags then true
  else false

/-- `MorphToolInterceptor.map_multiedit_parameters`: keeps `file_path`
(default `""`) and `edits` (default empty) and adds the
`batch_mode`/`atomic_operation` markers. -/
def map_multiedit_parameters (tool_input : ToolInput) : ToolInput :=
  { file_path := some (tool_input.file_path.getD "")
  , edits := some (tool_input.edits.getD 0) }

/-- `MorphToolInterceptor.map_tool_parameters`. -/
def map_tool_parameters (tool_name : String) (tool_input : ToolInput) : ToolInput :=
  if tool_name == "Read" || tool_name == "Write" || tool_name == "Edit" ||
      tool_name == "LS" || tool_name == "Glob" then tool_input
  else if tool_name == "MultiEdit" then map_multiedit_parameters tool_input
  else tool_input

/-- `MorphToolInterceptor.create_morph_tool_call`, reduced to the mapped
tool name and input (timestamp and session id are metadata only). -/
def create_morph_tool_call (tool_name : String) (tool_input : ToolInput) :
    String × ToolInput :=
  (lookupD TOOL_MAPPING tool_name tool_name, map_tool_parameters tool_name tool_input)

/-- Response dictionary of `MorphToolInterceptor.process_tool_call`. -/
structure InterceptResponse where
  action : String
  exit_code : Nat := 0
  reason : Option String := none
  alternative_tool : Option String := none
  alternative_input : Option ToolInput := none
  fallback_mode : Bool := false
  deriving DecidableEq, Repr

/-- `MorphToolInterceptor.create_fallback_response`: when MorphLLM is
unavailable the native tool is allowed to proceed in fallback mode. -/
def MorphToolInterceptor.create_fallback_response (tool_name : String)
    (_tool_input : ToolInput) : InterceptResponse :=
  { action := "allow"
  , reason := some ("MorphLLM unavailable, using native " ++ tool_name)
  , fallback_mode := true }

/-- `MorphToolInterceptor.process_tool_call`: bumps the session counter,
then either blocks the native call in favour of the MorphLLM tool, falls
back to the native tool when server validation fails (`validate_ok`
models `validate_morph_server()`), or allows the native call. -/
def process_tool_call (stats : SessionStats) (env : FsEnv)
    (flags : List String) (validate_ok : Bool) (tool_name : String)
    (tool_input : ToolInput) : InterceptResponse × SessionStats :=
  let stats1 := { stats with total_operations := stats.total_operations + 1 }
  if should_intercept stats1 env tool_name tool_input flags then
    if !validate_ok then
      (MorphToolInterceptor.create_fallback_response tool_name tool_input,
       { stats1 with fallback_operations := stats1.fallback_operations + 1 })
    else
      let morph_call := create_morph_tool_call tool_name tool_input
      ({ action := "block"
       , exit_code := 2
       , reason := some ("Routing " ++ tool_name ++ " to MorphLLM for improved performance")
       , alternative_tool := some morph_call.1
       , alternative_input := some morph_call.2 },
       { stats1 with morph_operations := stats1.morph_operations + 1 })
  else
    ({ action := "allow" },
     { stats1 with native_operations := stats1.native_operations + 1 })

end Interceptor

section PreToolUse

/-- `optimize_mcp_routing` from `performance_optimizer.py` (the caching
wrapper is semantically transparent): `Read` maps to `None` in the
routing dict, exactly like an absent key. -/
def optimize_mcp_routing (tool_name : String) : Option String :=
  if tool_name == "Analyze" then some "sequential"
  else if tool_name == "Build" then some "magic"
  else if tool_name == "Test" then some "playwright"
  else none

/-- `tool_routes` dict of `PreToolUseHook.select_fallback_route`. -/
def tool_routes : List (String × String) :=
  [ ("Read", "superclaude-code")
  , ("Write", "superclaude-code")
  , ("Edit", "superclaude-code")
  , ("MultiEdit", "superclaude-code")
  , ("Grep", "superclaude-code")
  , ("Glob", "superclaude-code")
  , ("Bash", "superclaude-orchestrator")
  , ("Task", "superclaude-tasks")
  , ("TodoWrite", "superclaude-tasks")
  , ("WebSearch", "superclaude-intelligence")
  , ("WebFetch", "superclaude-intelligence") ]

/-- `PreToolUseHook.select_fallback_route`. -/
def PreToolUseHook.select_fallback_route (tool_name : String) : String :=
  match optimize_mcp_routing tool_name with
  | some r => r
  | none =>
      let viaMcp : Option String :=
        if "mcp__".toList.isPrefixOf tool_name.toList then
          let parts := tool_name.splitOn "__"
          if parts.length ≥ 2 then
            let server := parts.getD 1 ""
            if server == "sequential-thinking" then some "sequential"
            else if server == "context7" then some "context7"
            else if server == "magic" then some "magic"
            else if server == "playwright" then some "playwright"
            else none
          else none
        else none
      match viaMcp with
      | some r => r
      | none => lookupD tool_routes tool_name "superclaude-orchestrator"

/-- `should_use_cache` from `performance_optimizer.py` with the default
`enable_caching = True`: everything but write operations is cacheable. -/
def should_use_cache (operation : String) : Bool :=
  !(["Write", "Edit", "MultiEdit", "TodoWrite"].contains operation)

/-- The routing context assembled by `PreToolUseHook.extract_context`,
restricted to the fields `route_to_bridge` consumes. -/
structure RouteContext where
  toolName : String
  toolArgs : ToolInput
  persona : Option String := none
  flags : List String := []

/-- Metadata dictionary of a routing decision. -/
structure RouteMetadata where
  fallback : Bool := false
  reason : Option String := none
  mcpRoute : Option String := none
  deriving DecidableEq, Repr

/-- A routing decision as returned by `route_to_bridge`. -/
structure RouteResponse where
  allow : Bool
  modifiedArgs : Option ToolInput := none
  metadata : RouteMetadata := {}
  deriving DecidableEq, Repr

/-- Outcome of the HTTP POST to the bridge service: a response with a
status code, a `requests.Timeout`, or any other exception. -/
inductive BridgeOutcome where
  | response (status_code : Nat) (body : RouteResponse)
  | timeout
  | error (e : String)

/-- `PreToolUseHook.create_fallback_response`: an `allow = true` decision
with fallback metadata and the locally selected MCP route. -/
def PreToolUseHook.create_fallback_response (context : RouteContext) : RouteResponse :=
  { allow := true
  , modifiedArgs := some context.toolArgs
  , metadata :=
    { fallback := true
    , reason := some "Bridge service unavailable"
    , mcpRoute := some (PreToolUseHook.select_fallback_route context.toolName) } }

/-- `PreToolUseHook.route_to_bridge`: a cached decision is returned
directly when caching applies; otherwise the bridge call's outcome is
inspected — a 200 response is returned as is, and a non-200 status, a
timeout, or any other exception all produce the fallback decision. -/
def PreToolUseHook.route_to_bridge (context : RouteContext)
    (cached : Option RouteResponse) (outcome : BridgeOutcome) : RouteResponse :=
  match (if should_use_cache context.toolName then cached else none) with
  | some r => r
  | none =>
      match outcome with
      | .response status_code body =>
          if status_code == 200 then body
          else PreToolUseHook.create_fallback_response context
      | .timeout => PreToolUseHook.create_fallback_response context
      | .error _ => PreToolUseHook.create_fallback_response context

end PreToolUse

/-- C10: the `--no-morph` flag disables interception outright: whatever
the tool, its input, the other morph flags and the auto-activation state,
`should_intercept` returns `false`, so the call is never routed to
MorphLLM. -/
theorem C10_no_morph_flag_takes_precedence (stats : SessionStats)
    (env : FsEnv) (tool_name : String) (tool_input : ToolInput)
    (flags : List String) :
    flags.contains "--no-morph" = true →
    should_intercept stats env tool_name tool_input flags = false := by
  intro h
  have hm : "--no-morph" ∈ flags := by simpa using h
  simp [should_intercept, hm]

/-- C10 witness: with every morph flag present, `--no-morph` still wins
even for a mapped tool and a session past the auto-activation
threshold. -/
theorem C10_no_morph_flag_takes_precedence_witness :
    should_intercept { total_operations := 100 } ⟨fun _ => none⟩ "Read" {}
      ["--morph", "--morphllm", "--morph-only", "--morph-fast", "--no-morph"] = false :=
  C10_no_morph_flag_takes_precedence { total_operations := 100 } ⟨fun _ => none⟩
    "Read" {} ["--morph", "--morphllm", "--morph-only", "--morph-fast", "--no-morph"]
    (by decide)

/-- C6: failure semantics of the routing decision engine. A bridging
request that times out resolves to the `allow = true` fallback decision
(never an unhandled failure), and when external-service validation fails
(`validate_morph_server` returns false) on an intercepted call, the
engine immediately returns the allow fallback decision in fallback
mode. -/
theorem C6_validation_and_timeout_yield_allow_fallback :
    (∀ context : RouteContext,
      PreToolUseHook.route_to_bridge context none BridgeOutcome.timeout =
        PreToolUseHook.create_fallback_response context ∧
      (PreToolUseHook.route_to_bridge context none BridgeOutcome.timeout).allow = true) ∧
    (∀ (stats : SessionStats) (env : FsEnv) (flags : List String)
        (tool_name : String) (tool_input : ToolInput),
      should_intercept { stats with total_operations := stats.total_operations + 1 }
          env tool_name tool_input flags = true →
      (process_tool_call stats env flags false tool_name tool_input).1 =
        MorphToolInterceptor.create_fallback_response tool_name tool_input ∧
      (process_tool_call stats env flags false tool_name tool_input).1.action = "allow" ∧
      (process_tool_call stats env flags false tool_name tool_input).1.fallback_mode = true) := by
  refine ⟨fun context => ?_, ?_⟩
  · have h : PreToolUseHook.route_to_bridge context none BridgeOutcome.timeout =
        PreToolUseHook.create_fallback_response context := by
      simp [PreToolUseHook.route_to_bridge]
    exact ⟨h, by rw [h]; rfl⟩
  · intro stats env flags tool_name tool_input hsi
    have h : (process_tool_call stats env flags false tool_name tool_input).1 =
        MorphToolInterceptor.create_fallback_response tool_name tool_input := by
      simp [process_tool_call, hsi]
    exact ⟨h, by rw [h]; rfl, by rw [h]; rfl⟩

/-- C6 witness: a concrete timeout on a `Read` routing request and a
concrete validation failure on an intercepted `--morph` call both yield
allow decisions. -/
theorem C6_validation_and_timeout_yield_allow_fallback_witness :
    PreToolUseHook.route_to_bridge ⟨"Read", {}, none, []⟩ none BridgeOutcome.timeout =
      PreToolUseHook.create_fallback_response ⟨"Read", {}, none, []⟩ ∧
    (process_tool_call {} ⟨fun _ => none⟩ ["--morph"] false "Read" {}).1.action = "allow" ∧
    (process_tool_call {} ⟨fun _ => none⟩ ["--morph"] false "Read" {}).1.fallback_mode = true :=
  ⟨(C6_validation_and_timeout_yield_allow_fallback.1 ⟨"Read", {}, none, []⟩).1,
   (C6_validation_and_timeout_yield_allow_fallback.2 {} ⟨fun _ => none⟩ ["--morph"]
      "Read" {} (by decide)).2.1,
   (C6_validation_and_timeout_yield_allow_fallback.2 {} ⟨fun _ => none⟩ ["--morph"]
      "Read" {} (by decide)).2.2⟩

end SuperClaude
